import Mathlib

/-!
Verification of the helm reconciliation module
(src/lib/ansible/modules/cloud/misc/helm.py).

The module probes the helm client version, queries the status of a release,
and decides whether to deploy, delete, fail, or do nothing.  The embedding
below follows the source function by function.  Command construction is
modelled at the level of the string fragments the source accumulates: the
initial base command is a list of strings and every flag appended by the
source becomes one further fragment in the list (the source text mixes
string concatenation with list append; the literal Python dynamic semantics
of that mixing is modelled separately by the PyVal development further
down).  Process execution is abstracted by an environment record that
supplies, per call site, the exit code, stdout, stderr and parsed output
that module.run_command and yaml.safe_load would return.
-/

namespace HelmModule

/-- Values overlay mapping (the release_values dict), modelled as an
association list with decidable equality. -/
abbrev Values := List (String × String)

/-- One release record as parsed from the yaml listing returned by
helm list (the keys Name, Namespace, Chart used by the source). -/
structure ReleaseRec where
  Name : String
  Namespace : String
  Chart : String
deriving DecidableEq, Repr

/-- An observed release after status has attached the fetched values
(release[Values] = get_values(...), helm.py line 115). -/
structure Release where
  Name : String
  Namespace : String
  Chart : String
  Values : Values
deriving DecidableEq, Repr

/-- Character-list matching at the head, mirroring Python str.startswith. -/
def chars_match : List Char → List Char → Bool
  | [], _ => true
  | _ :: _, [] => false
  | p :: ps, c :: cs => (p == c) && chars_match ps cs

/-- Python s.startswith(pre). -/
def py_startswith (s pre : String) : Bool :=
  chars_match pre.data s.data

/-- Substring search over character lists, mirroring the Python operator
pat in s used on stderr in delete (helm.py line 167). -/
def sub_at_any : List Char → List Char → Bool
  | pat, [] => pat.isEmpty
  | pat, c :: cs => chars_match pat (c :: cs) || sub_at_any pat cs

/-- Python pat in s (substring containment). -/
def containsSub (s pat : String) : Bool :=
  sub_at_any pat.data s.data

/-- The failure message template shared by every fail_json call of the
module: "Failure when executing Helm command. Exited {0}.\nstdout: {1}\nstderr: {2}". -/
def helm_fail_msg (rc : Nat) (out err : String) : String :=
  "Failure when executing Helm command. Exited " ++ toString rc ++
    ".\nstdout: " ++ out ++ "\nstderr: " ++ err

/-- The string appended to the base command by get_client_version
(helm.py line 64); braces and quotes written with character escapes. -/
def version_template_fragment : String :=
  "\x20version --client --template \x27\x7b\x7b .Client.SemVer \x7d\x7d\x27"

/-- Fragment sequence of the version probe command (helm.py line 64). -/
def version_command (command : List String) : List String :=
  command ++ [version_template_fragment]

/-- Fragment sequence of the list command (helm.py line 101). -/
def list_command (command : List String) : List String :=
  command ++ [" list --output=yaml"]

/-- Fragment sequence of the get-values command (helm.py line 79). -/
def get_values_command (command : List String) (release_name : String) : List String :=
  command ++ [" get values --output=yaml " ++ release_name]

/-- Fragment sequence of the deploy command (helm.py lines 125-143).
Each branch mirrors the corresponding conditional append in the source;
note that line 141 embeds the release name into the namespace fragment and
line 142 appends the release name again, and that the values-file branch
tests the mapping against None, not against emptiness (line 136). -/
def deploy_command (command : List String) (release_namespace release_name : String)
    (release_value : Option Values) (chart_name : String) (chart_version : Option String)
    (repo_url repo_username repo_password : Option String) (values_path : String) :
    List String :=
  command ++ [" upgrade -i "]
    ++ (match chart_version with
        | some v => [" --version=" ++ v]
        | none => [])
    ++ (match repo_url with
        | some u =>
          [" --repo=" ++ u] ++
            (match repo_username, repo_password with
             | some usr, some pw => [" --username=" ++ usr, " --password=" ++ pw]
             | _, _ => [])
        | none => [])
    ++ (match release_value with
        | some _ => [" -f=" ++ values_path]
        | none => [])
    ++ [" --namespace=" ++ release_namespace ++ " " ++ release_name]
    ++ [" " ++ release_name]
    ++ [" " ++ chart_name]

/-- Fragment sequence of the delete command (helm.py lines 158-163). -/
def delete_command (command : List String) (release_name : String) (purge : Bool) :
    List String :=
  command ++ [" delete"]
    ++ (if purge then [" --purge"] else [])
    ++ [" " ++ release_name]

/-- The stderr template matched by delete:
"Error: release: {0} not found".format(release_name) (helm.py line 167). -/
def not_found_pattern (release_name : String) : String :=
  "Error: release: " ++ release_name ++ " not found"

/-- Linear scan of the parsed listing for the record whose Name equals the
target (get_release, helm.py lines 92-96). -/
def get_release (releases : List ReleaseRec) (release_name : String) : Option ReleaseRec :=
  match releases with
  | [] => none
  | r :: rest => if r.Name = release_name then some r else get_release rest release_name

/-- Outcome of the delete function (helm.py lines 157-177): either it
returns (changed, out), or it calls fail_json with a message and the
space-joined command. -/
inductive DeleteOutcome where
  | ok (changed : Bool) (out : String)
  | failJson (msg command : String)
deriving DecidableEq, Repr

/-- The delete function (helm.py lines 157-177), with the run_command
result (rc, out, err) supplied by the caller.  Exit code 1 whose stderr
contains the not-found template yields changed = False; any other nonzero
exit calls fail_json; exit 0 yields changed = True. -/
def delete (command : List String) (release_name : String) (purge : Bool)
    (rc : Nat) (out err : String) : DeleteOutcome :=
  let dc := delete_command command release_name purge
  if rc = 1 ∧ containsSub err (not_found_pattern release_name) = true then
    .ok false out
  else if rc ≠ 0 then
    .failJson (helm_fail_msg rc out err) (String.intercalate " " dc)
  else
    .ok true out

/-- Outcome of the status function (helm.py lines 100-117): a fail_json
payload, or an optional observed release. -/
inductive StatusOutcome where
  | failJson (msg command : String)
  | result (r : Option Release)
deriving DecidableEq, Repr

/-- Kinds of external commands executed during one run. -/
inductive CmdKind where
  | probe
  | listReleases
  | getVals
  | deployCmd
  | deleteCmd
deriving DecidableEq, Repr

/-- The status function (helm.py lines 100-117).  The run_command results
of the list call (list_rc, list_out, list_err, with releases the parsed
yaml list under the Releases key) and of the nested get_values call
(get_rc, get_out, get_err, with get_parsed the parsed values) are supplied
by the caller.  Returns the outcome together with the commands executed. -/
def status (command : List String) (release_name : String)
    (list_rc : Nat) (list_out list_err : String) (releases : List ReleaseRec)
    (get_rc : Nat) (get_out get_err : String) (get_parsed : Values) :
    StatusOutcome × List CmdKind :=
  if list_rc ≠ 0 then
    (.failJson (helm_fail_msg list_rc list_out list_err)
       (String.intercalate " " (list_command command)), [.listReleases])
  else
    match get_release releases release_name with
    | none => (.result none, [.listReleases])
    | some r =>
      if get_rc ≠ 0 then
        (.failJson (helm_fail_msg get_rc get_out get_err)
           (String.intercalate " " (get_values_command command release_name)),
         [.listReleases, .getVals])
      else
        (.result (some ⟨r.Name, r.Namespace, r.Chart, get_parsed⟩),
         [.listReleases, .getVals])

/-- The tiller-dialect step of main (helm.py lines 218-222): when the
probed version starts with v2., exactly one connection fragment is
appended, chosen by whether a tiller host was supplied. -/
def dialect_command (command : List String) (helm_version : String)
    (tiller_host : Option String) (tiller_namespace : String) : List String :=
  if py_startswith helm_version "v2." then
    match tiller_host with
    | some _ => command ++ [" --tiller-namespace=" ++ tiller_namespace]
    | none => command ++ [" --host=" ++ tiller_namespace]
  else
    command

/-- Decision of the present-state branch of main (helm.py lines 226-241)
for a given observed status.  The elif chain is mirrored in order; the
conjunction on lines 235-236 short-circuits as in Python, and when
chart_version is None the concatenation chart_name + "-" + chart_version
raises a TypeError, modelled by the typeErrorConcat outcome. -/
inductive Decision where
  | deploy
  | failNamespace
  | typeErrorConcat
  | unchanged
deriving DecidableEq, Repr

/-- The present-state decision (helm.py lines 226-241). -/
def decide_present (release_values : Values) (chart_name : String)
    (chart_version : Option String) (release_namespace : String)
    (release_status : Option Release) : Decision :=
  match release_status with
  | none => .deploy
  | some r =>
    if release_namespace ≠ r.Namespace then
      .failNamespace
    else if release_values ≠ r.Values then
      match chart_version with
      | none => .typeErrorConcat
      | some v => if chart_name ++ "-" ++ v ≠ r.Chart then .deploy else .unchanged
    else
      .unchanged

/-- The module parameters as declared in the argument_spec of main
(helm.py lines 183-196).  release_values has type dict with default {}
and therefore is never None; repo_url is required. -/
structure Params where
  bin_path : Option String
  chart_name : String
  chart_version : Option String
  release_name : String
  release_namespace : String
  release_state : String
  release_values : Values
  repo_url : String
  repo_username : Option String
  repo_password : Option String
  tiller_host : Option String
  tiller_namespace : String
deriving DecidableEq, Repr

/-- The external world of one run: per call site, the exit code, stdout and
stderr that module.run_command would return, the parsed forms that
yaml.safe_load would produce, the resolved helm binary path from
get_bin_path, and the temporary file path from tempfile.mkstemp. -/
structure Env where
  helm_path : String
  version_rc : Nat
  version_out : String
  version_err : String
  list_rc : Nat
  list_out : String
  list_err : String
  releases : List ReleaseRec
  get_rc : Nat
  get_out : String
  get_err : String
  get_values_parsed : Values
  tmp_path : String
  deploy_rc : Nat
  deploy_out : String
  deploy_err : String
  delete_rc : Nat
  delete_out : String
  delete_err : String
deriving DecidableEq, Repr

/-- Terminal outcome of one run of main: a fail_json payload (with the
joined command when one is attached), a successful exit_json, or an
uncaught Python exception named by its kind. -/
inductive RunOutcome where
  | failJson (msg : String) (command : Option String)
  | exitJson (changed : Bool) (stdout stderr : String)
  | pyError (kind : String)
deriving DecidableEq, Repr

/-- Python unpacking out, err = s of a string s (helm.py line 228): a
string iterates into its characters, so the unpacking succeeds exactly
when s has two characters, binding each as a one-character string;
otherwise a ValueError is raised. -/
def unpack_two (s : String) : Option (String × String) :=
  match s.data with
  | [a, b] => some (⟨[a]⟩, ⟨[b]⟩)
  | _ => none

/-- The fail_json message of the namespace check (helm.py lines 232-234). -/
def namespace_violation_msg : String :=
  "Target Namespace can\x27t be changed on deployed chart ! Need to destroy and recreate it"

/-- The present-state branch of main after status (helm.py lines 226-241),
routed through decide_present.  On a deploy decision the deploy function
runs (helm.py lines 121-153) and its single return value is unpacked into
out, err (line 228), raising a ValueError unless the stdout has exactly
two characters; on the unchanged decision the final exit_json references
the local variables out and err, which no path of this branch ever
assigned, raising an UnboundLocalError (line 245). -/
def run_present (p : Params) (env : Env) (obs : Option Release)
    (command : List String) (sofar : List CmdKind) : RunOutcome × List CmdKind :=
  match decide_present p.release_values p.chart_name p.chart_version
      p.release_namespace obs with
  | .deploy =>
    let dc := deploy_command command p.release_namespace p.release_name
      (some p.release_values) p.chart_name p.chart_version
      (some p.repo_url) p.repo_username p.repo_password env.tmp_path
    if env.deploy_rc ≠ 0 then
      (.failJson (helm_fail_msg env.deploy_rc env.deploy_out env.deploy_err)
         (some (String.intercalate " " dc)), sofar ++ [.deployCmd])
    else
      match unpack_two env.deploy_out with
      | some (o, e) => (.exitJson true o e, sofar ++ [.deployCmd])
      | none => (.pyError "ValueError", sofar ++ [.deployCmd])
  | .failNamespace => (.failJson namespace_violation_msg none, sofar)
  | .typeErrorConcat => (.pyError "TypeError", sofar)
  | .unchanged => (.pyError "UnboundLocalError", sofar)

/-- One full run of main (helm.py lines 180-245): build the base command,
probe the version, apply the tiller dialect, query status, then branch on
release_state.  In the absent branch the delete function runs; its tuple
return is bound to changed, after which exit_json references the unbound
locals out and err, raising an UnboundLocalError (line 245).  Returns the
terminal outcome together with the list of commands executed. -/
def main_run (p : Params) (env : Env) : RunOutcome × List CmdKind :=
  let command0 : List String :=
    match p.bin_path with
    | some b => [b]
    | none => [env.helm_path]
  if env.version_rc ≠ 0 then
    (.failJson (helm_fail_msg env.version_rc env.version_out env.version_err)
       (some (String.intercalate " " (version_command command0))), [.probe])
  else
    let command := dialect_command command0 env.version_out p.tiller_host p.tiller_namespace
    match status command p.release_name env.list_rc env.list_out env.list_err
        env.releases env.get_rc env.get_out env.get_err env.get_values_parsed with
    | (.failJson m c, ran) => (.failJson m (some c), .probe :: ran)
    | (.result obs, ran) =>
      if p.release_state = "present" then
        run_present p env obs command (.probe :: ran)
      else
        match delete command p.release_name true env.delete_rc env.delete_out
            env.delete_err with
        | .failJson m c => (.failJson m (some c), (.probe :: ran) ++ [.deleteCmd])
        | .ok _ _ => (.pyError "UnboundLocalError", (.probe :: ran) ++ [.deleteCmd])

/-!
Literal Python dynamic semantics of the command construction.  The source
initializes command as a Python list of strings (helm.py lines 212-215)
and extends it with list.append (lines 220-222), but every command builder
then applies the + operator between that list and a flag string
(lines 64, 79, 101, 125, 158).  In Python, + between a list and a str
raises a TypeError; the partial operation pyAdd returns none in exactly
that case.
-/

/-- A Python value of the shapes used by the module: a string or a list. -/
inductive PyVal where
  | str (s : String)
  | pylist (xs : List PyVal)

/-- Python + on these values: str + str concatenates, list + list
concatenates, and any mixed application raises a TypeError (none). -/
def pyAdd : PyVal → PyVal → Option PyVal
  | .str a, .str b => some (.str (a ++ b))
  | .pylist a, .pylist b => some (.pylist (a ++ b))
  | _, _ => none

/-- The base command built by main (helm.py lines 212-215, 220-222): a
Python list holding the binary path, possibly extended by list.append
with further flag strings. -/
def py_main_command (bin : String) (extra : List String) : PyVal :=
  .pylist (.str bin :: extra.map .str)

/-- The version-probe construction of get_client_version (helm.py line 64). -/
def py_version_command (command : PyVal) : Option PyVal :=
  pyAdd command (.str version_template_fragment)

/-- The list construction of status (helm.py line 101). -/
def py_list_command (command : PyVal) : Option PyVal :=
  pyAdd command (.str " list --output=yaml")

/-- The get-values construction of get_values (helm.py line 79). -/
def py_get_command (command : PyVal) (release_name : String) : Option PyVal :=
  (pyAdd command (.str " get values --output=yaml ")).bind
    (fun c => pyAdd c (.str release_name))

/-- The initial deploy construction of deploy (helm.py line 125). -/
def py_deploy_command (command : PyVal) : Option PyVal :=
  pyAdd command (.str " upgrade -i ")

/-- The initial delete construction of delete (helm.py line 158). -/
def py_delete_command (command : PyVal) : Option PyVal :=
  pyAdd command (.str " delete")

/-- The deploy command shape exactly as claim C5 states it: the -f flag
present iff the values mapping is non-empty, a pure namespace flag, and
the positional release name and chart name each exactly once. -/
def deploy_command_claimed (command : List String) (release_namespace release_name : String)
    (release_value : Option Values) (chart_name : String) (chart_version : Option String)
    (repo_url repo_username repo_password : Option String) (values_path : String) :
    List String :=
  command ++ [" upgrade -i "]
    ++ (match chart_version with
        | some v => [" --version=" ++ v]
        | none => [])
    ++ (match repo_url with
        | some u =>
          [" --repo=" ++ u] ++
            (match repo_username, repo_password with
             | some usr, some pw => [" --username=" ++ usr, " --password=" ++ pw]
             | _, _ => [])
        | none => [])
    ++ (match release_value with
        | some vs => if vs.isEmpty then [] else [" -f=" ++ values_path]
        | none => [])
    ++ [" --namespace=" ++ release_namespace]
    ++ [" " ++ release_name]
    ++ [" " ++ chart_name]

/-- Claim C4: for every probed version string, exactly when it starts with
the Python str prefix test against "v2." a single tiller-connection
fragment is appended to the base command, chosen as the tiller-namespace
flag when a tiller host was supplied and the host flag carrying the tiller
namespace otherwise; any version string that does not start with "v2."
leaves the base command unmodified. -/
theorem C4_dialect_selection (cmd : List String) (hv tns : String)
    (th : Option String) :
    (py_startswith hv "v2." = false → dialect_command cmd hv th tns = cmd)
    ∧ (py_startswith hv "v2." = true →
        dialect_command cmd hv th tns =
          cmd ++ [(match th with
                   | some _ => " --tiller-namespace=" ++ tns
                   | none => " --host=" ++ tns)]) := by
  constructor
  · intro h
    simp [dialect_command, h]
  · intro h
    cases th with
    | some t => simp [dialect_command, h]
    | none => simp [dialect_command, h]

/-- Witness for C4 at concrete inputs: helm version v2.4.1 with a tiller
host appends the tiller-namespace flag; v3.0.0 leaves the command alone. -/
theorem C4_dialect_selection_witness :
    dialect_command ["helm"] "v2.4.1" (some "tiller.example") "kube-system" =
      ["helm", " --tiller-namespace=kube-system"]
    ∧ dialect_command ["helm"] "v3.0.0" none "default" = ["helm"] := by
  constructor
  · have h := (C4_dialect_selection ["helm"] "v2.4.1" "kube-system"
      (some "tiller.example")).2 (by decide)
    exact h.trans (by decide)
  · exact (C4_dialect_selection ["helm"] "v3.0.0" "default" none).1 (by decide)

/-- Claim C3: when the delete command exits with code 1 and stderr contains
the template "Error: release: name not found", delete reports
changed = false without failing; any other nonzero exit is a fail_json
carrying the message built from exit code, stdout and stderr together with
the joined command; exit code 0 reports changed = true. -/
theorem C3_idempotent_delete (cmd : List String) (name : String) (purge : Bool)
    (rc : Nat) (out err : String) :
    (rc = 1 → containsSub err (not_found_pattern name) = true →
      delete cmd name purge rc out err = .ok false out)
    ∧ (rc ≠ 0 → ¬(rc = 1 ∧ containsSub err (not_found_pattern name) = true) →
      delete cmd name purge rc out err =
        .failJson (helm_fail_msg rc out err)
          (String.intercalate " " (delete_command cmd name purge)))
    ∧ (rc = 0 → delete cmd name purge rc out err = .ok true out) := by
  refine ⟨?_, ?_, ?_⟩
  · intro h1 h2
    simp [delete, h1, h2]
  · intro h1 h2
    simp only [delete]
    rw [if_neg h2, if_pos h1]
  · intro h0
    subst h0
    simp [delete]

/-- Witness for C3: an already-absent release (exit 1, matching stderr)
yields changed = false without a failure. -/
theorem C3_idempotent_delete_witness :
    delete ["helm"] "app" true 1 "" "Error: release: app not found" =
      .ok false "" :=
  (C3_idempotent_delete ["helm"] "app" true 1 "" "Error: release: app not found").1
    rfl (by decide)

/-- Claim C9: main always builds the base command as a Python list of
strings, while every command builder applies the + operator between that
list and a flag string; under the literal Python semantics each such
construction raises a TypeError (none), so no probe, list, get-values,
deploy or delete command is ever produced as a well-formed value. -/
theorem C9_list_str_type_mixing (bin : String) (extra : List String)
    (name : String) :
    py_version_command (py_main_command bin extra) = none
    ∧ py_list_command (py_main_command bin extra) = none
    ∧ py_get_command (py_main_command bin extra) name = none
    ∧ py_deploy_command (py_main_command bin extra) = none
    ∧ py_delete_command (py_main_command bin extra) = none :=
  ⟨rfl, rfl, rfl, rfl, rfl⟩

/-- Counterexample to claim C10: the claim asserts the concatenation
chart_name + "-" + chart_version is evaluated unconditionally, so that a
matching-namespace release observed with chart_version omitted makes the
decision step fail; but the Python conjunction short-circuits, and when
the observed values equal the desired values the decision completes as
unchanged with no TypeError. -/
theorem C10_short_circuit_counterexample :
    decide_present [("replicas", "1")] "mychart" none "default"
        (some ⟨"app", "default", "mychart-1.0.0", [("replicas", "1")]⟩) =
      .unchanged
    ∧ decide_present [("replicas", "1")] "mychart" none "default"
        (some ⟨"app", "default", "mychart-1.0.0", [("replicas", "1")]⟩) ≠
      .typeErrorConcat := by
  constructor
  · decide
  · decide

/-- Claim C10 as amended: for an observed release in the matching
namespace, the decision evaluates the chart-identity concatenation only
when the observed values differ from the desired values; in that case a
missing chart_version raises a TypeError and the decision cannot complete,
while equal values complete as unchanged, and any supplied chart_version
keeps the decision total. -/
theorem C10_concat_partiality (vals : Values) (cname ns : String) (r : Release)
    (hns : r.Namespace = ns) :
    (vals ≠ r.Values →
      decide_present vals cname none ns (some r) = .typeErrorConcat)
    ∧ (vals = r.Values →
      decide_present vals cname none ns (some r) = .unchanged)
    ∧ (∀ v, decide_present vals cname (some v) ns (some r) ≠ .typeErrorConcat) := by
  subst hns
  refine ⟨?_, ?_, ?_⟩
  · intro hv
    simp [decide_present, hv]
  · intro hv
    simp [decide_present, hv]
  · intro v
    by_cases hv : vals = r.Values
    · simp [decide_present, hv]
    · by_cases hc : cname ++ "-" ++ v = r.Chart
      · simp [decide_present, hv, hc]
      · simp [decide_present, hv, hc]

/-- Witness for C10 as amended: omitted chart version with differing
values yields the TypeError outcome. -/
theorem C10_concat_partiality_witness :
    decide_present [("a", "1")] "mychart" none "default"
        (some ⟨"app", "default", "mychart-1.0.0", [("a", "2")]⟩) =
      .typeErrorConcat :=
  (C10_concat_partiality [("a", "1")] "mychart" "default"
    ⟨"app", "default", "mychart-1.0.0", [("a", "2")]⟩ rfl).1 (by decide)

/-- Claim C1: for a present-state spec with a supplied chart version and an
observed release in the matching namespace, the decision is deploy exactly
when the observed values differ from the desired values and the observed
chart identity differs from chart_name-chart_version; in every other case
the decision is unchanged, and the unchanged decision makes the present
branch of main execute no further command. -/
theorem C1_conjunctive_trigger (vals : Values) (cname v ns : String) (r : Release)
    (hns : r.Namespace = ns) :
    (decide_present vals cname (some v) ns (some r) = .deploy ↔
      (vals ≠ r.Values ∧ cname ++ "-" ++ v ≠ r.Chart))
    ∧ (decide_present vals cname (some v) ns (some r) ≠ .deploy →
      decide_present vals cname (some v) ns (some r) = .unchanged)
    ∧ (∀ (p : Params) (env : Env) (cmd : List String) (sofar : List CmdKind),
      p.release_values = vals → p.chart_name = cname →
      p.chart_version = some v → p.release_namespace = ns →
      decide_present vals cname (some v) ns (some r) = .unchanged →
      (run_present p env (some r) cmd sofar).2 = sofar) := by
  subst hns
  have hcases : ∀ P : Decision → Prop,
      (vals ≠ r.Values → cname ++ "-" ++ v ≠ r.Chart → P .deploy) →
      (vals ≠ r.Values → cname ++ "-" ++ v = r.Chart → P .unchanged) →
      (vals = r.Values → P .unchanged) →
      P (decide_present vals cname (some v) r.Namespace (some r)) := by
    intro P hd hu1 hu2
    by_cases hv : vals = r.Values
    · simpa [decide_present, hv] using hu2 hv
    · by_cases hc : cname ++ "-" ++ v = r.Chart
      · simpa [decide_present, hv, hc] using hu1 hv hc
      · simpa [decide_present, hv, hc] using hd hv hc
  refine ⟨?_, ?_, ?_⟩
  · apply hcases fun d => d = .deploy ↔ (vals ≠ r.Values ∧ cname ++ "-" ++ v ≠ r.Chart)
    · intro hv hc
      simp [hv, hc]
    · intro hv hc
      simp [hc]
    · intro hv
      simp [hv]
  · apply hcases fun d => d ≠ .deploy → d = .unchanged
    · intro _ _ h
      exact absurd rfl h
    · intro _ _ _
      rfl
    · intro _ _
      rfl
  · intro p env cmd sofar h1 h2 h3 h4 hdec
    simp only [run_present, h1, h2, h3, h4, hdec]

/-- Witness for C1: with both the values and the chart identity changed the
decision is deploy; the hypothesis instantiates the matching namespace. -/
theorem C1_conjunctive_trigger_witness :
    decide_present [("replicas", "2")] "mychart" (some "1.0.0") "default"
        (some ⟨"app", "default", "mychart-0.9.0", [("replicas", "1")]⟩) =
      .deploy :=
  ((C1_conjunctive_trigger [("replicas", "2")] "mychart" "1.0.0" "default"
    ⟨"app", "default", "mychart-0.9.0", [("replicas", "1")]⟩ rfl).1).mpr (by decide)

/-- Counterexample to claim C5: with an empty (but not None) values
mapping, the deploy command the source builds still carries the -f flag
and repeats the release name, so it differs from the shape the claim
states at this input. -/
theorem C5_deploy_shape_counterexample :
    deploy_command ["helm"] "default" "app" (some []) "mychart" none
        (some "https://charts.example") none none "/tmp/values.yml" ≠
      deploy_command_claimed ["helm"] "default" "app" (some []) "mychart" none
        (some "https://charts.example") none none "/tmp/values.yml" := by
  decide

/-- Claim C5 as amended, at the argument forms main actually passes (the
values mapping and the repository url are never None): the deploy command
is the base command, then upgrade -i, then the version flag iff a chart
version was given, then the repo flag with credentials iff both were
given, then the -f flag always (the source tests the mapping against
None, never against emptiness), then a namespace fragment that also embeds
the release name, then the release name again, then the chart name. -/
theorem C5_deploy_shape_amended (cmd : List String) (ns name : String)
    (vals : Values) (chart : String) (cv : Option String) (url : String)
    (usr pw : Option String) (path : String) :
    deploy_command cmd ns name (some vals) chart cv (some url) usr pw path =
      cmd ++ [" upgrade -i "]
        ++ (match cv with
            | some v => [" --version=" ++ v]
            | none => [])
        ++ ([" --repo=" ++ url]
            ++ (match usr, pw with
                | some u, some p => [" --username=" ++ u, " --password=" ++ p]
                | _, _ => []))
        ++ [" -f=" ++ path, " --namespace=" ++ ns ++ " " ++ name,
            " " ++ name, " " ++ chart] := by
  simp [deploy_command]

/-- Claim C6: a nonzero exit of the list command makes status fail; a zero
exit whose parsed listing holds no record with the target name returns
None without error; when the record exists and the get-values call exits
zero, the parsed values are attached to the returned record; and a nonzero
exit of the get-values call fails rather than being swallowed. -/
theorem C6_status_contract (cmd : List String) (name : String)
    (list_rc : Nat) (lo le : String) (rels : List ReleaseRec)
    (get_rc : Nat) (go ge : String) (vals : Values) :
    (list_rc ≠ 0 →
      (status cmd name list_rc lo le rels get_rc go ge vals).1 =
        .failJson (helm_fail_msg list_rc lo le)
          (String.intercalate " " (list_command cmd)))
    ∧ (list_rc = 0 → get_release rels name = none →
      status cmd name list_rc lo le rels get_rc go ge vals =
        (.result none, [.listReleases]))
    ∧ (∀ r, list_rc = 0 → get_release rels name = some r → get_rc = 0 →
      status cmd name list_rc lo le rels get_rc go ge vals =
        (.result (some ⟨r.Name, r.Namespace, r.Chart, vals⟩),
         [.listReleases, .getVals]))
    ∧ (∀ r, list_rc = 0 → get_release rels name = some r → get_rc ≠ 0 →
      (status cmd name list_rc lo le rels get_rc go ge vals).1 =
        .failJson (helm_fail_msg get_rc go ge)
          (String.intercalate " " (get_values_command cmd name))) := by
  refine ⟨?_, ?_, ?_, ?_⟩
  · intro h
    simp [status, h]
  · intro h hr
    simp [status, h, hr]
  · intro r h hr hg
    simp [status, h, hr, hg]
  · intro r h hr hg
    simp [status, h, hr, hg]

/-- Witness for C6: a listing holding the target record with a successful
values fetch returns the record with the parsed values attached. -/
theorem C6_status_contract_witness :
    status ["helm"] "app" 0 "" "" [⟨"app", "default", "mychart-1.0.0"⟩]
        0 "" "" [("replicas", "1")] =
      (.result (some ⟨"app", "default", "mychart-1.0.0", [("replicas", "1")]⟩),
       [.listReleases, .getVals]) :=
  (C6_status_contract ["helm"] "app" 0 "" "" [⟨"app", "default", "mychart-1.0.0"⟩]
    0 "" "" [("replicas", "1")]).2.2.1 ⟨"app", "default", "mychart-1.0.0"⟩
    rfl (by decide) rfl

/-- Claim C2: a present-state run that observes an existing release in a
namespace different from the desired one fails with the immutable-field
message (including the destroy-and-recreate remediation hint) and executes
only the probe, list and get-values commands, never a deploy or delete. -/
theorem C2_namespace_immutable (p : Params) (env : Env) (r : ReleaseRec)
    (hstate : p.release_state = "present")
    (hver : env.version_rc = 0) (hlist : env.list_rc = 0)
    (hfound : get_release env.releases p.release_name = some r)
    (hget : env.get_rc = 0)
    (hns : p.release_namespace ≠ r.Namespace) :
    main_run p env =
      (.failJson namespace_violation_msg none, [.probe, .listReleases, .getVals]) := by
  simp only [main_run, status, hver, hlist, hfound, hget, hstate,
    run_present, decide_present]
  simp [hns]

/-- Witness for C2: a deployed release observed in namespace default while
the spec demands namespace prod fails with the immutable-field message and
no mutating command. -/
theorem C2_namespace_immutable_witness :
    main_run
        ⟨none, "mychart", some "1.0.0", "app", "prod", "present", [],
         "https://charts.example", none, none, none, "default"⟩
        ⟨"helm", 0, "v3.0.0", "", 0, "", "", [⟨"app", "default", "mychart-1.0.0"⟩],
         0, "", "", [], "/tmp/v.yml", 0, "", "", 0, "", ""⟩ =
      (.failJson namespace_violation_msg none, [.probe, .listReleases, .getVals]) :=
  C2_namespace_immutable _ _ ⟨"app", "default", "mychart-1.0.0"⟩
    rfl rfl rfl (by decide) rfl (by decide)

/-- Counterexample to claim C7: after a successful delete of release app
the backing store reports it absent, yet the second absent-state
reconciliation of the same spec still executes the delete command, so a
mutating command is issued on the second run. -/
theorem C7_idempotence_counterexample :
    CmdKind.deleteCmd ∈
      (main_run
        ⟨none, "mychart", some "1.0.0", "app", "default", "absent", [],
         "https://charts.example", none, none, none, "default"⟩
        ⟨"helm", 0, "v3.0.0", "", 0, "", "", [], 0, "", "", [], "/tmp/v.yml",
         0, "", "", 1, "", "Error: release: app not found"⟩).2 := by
  decide

/-- Claim C7 as amended: for a present-state spec whose first deploy
succeeded and whose outcome the backing store now reports exactly (the
release exists under the desired namespace with the deployed chart
identity and values), the second reconciliation reaches the unchanged
decision and executes no deploy or delete command; an absent-state rerun
instead executes the delete command again, which the not-found handling
classifies as changed = false. -/
theorem C7_idempotence_amended (p : Params) (env : Env) (r : ReleaseRec) (v : String)
    (hstate : p.release_state = "present")
    (hv : p.chart_version = some v)
    (hver : env.version_rc = 0) (hlist : env.list_rc = 0)
    (hfound : get_release env.releases p.release_name = some r)
    (hget : env.get_rc = 0)
    (hns : r.Namespace = p.release_namespace)
    (hchart : r.Chart = p.chart_name ++ "-" ++ v)
    (hvals : env.get_values_parsed = p.release_values) :
    decide_present p.release_values p.chart_name p.chart_version p.release_namespace
        (some ⟨r.Name, r.Namespace, r.Chart, env.get_values_parsed⟩) = .unchanged
    ∧ (main_run p env).2 = [.probe, .listReleases, .getVals] := by
  have hdec : decide_present p.release_values p.chart_name p.chart_version
      p.release_namespace
      (some ⟨r.Name, r.Namespace, r.Chart, env.get_values_parsed⟩) = .unchanged := by
    simp [decide_present, hns, hvals]
  refine ⟨hdec, ?_⟩
  simp [main_run, status, run_present, hver, hlist, hfound, hget, hstate, hdec]

/-- Witness for C7 as amended: the example scenario of the specification,
re-run after a first successful deploy of app with chart mychart-1.0.0 and
values replicas = 1. -/
theorem C7_idempotence_amended_witness :
    (main_run
        ⟨none, "mychart", some "1.0.0", "app", "default", "present",
         [("replicas", "1")], "https://charts.example", none, none, none, "default"⟩
        ⟨"helm", 0, "v3.0.0", "", 0, "", "", [⟨"app", "default", "mychart-1.0.0"⟩],
         0, "", "", [("replicas", "1")], "/tmp/v.yml", 0, "", "", 0, "", ""⟩).2 =
      [.probe, .listReleases, .getVals] :=
  (C7_idempotence_amended
    ⟨none, "mychart", some "1.0.0", "app", "default", "present",
     [("replicas", "1")], "https://charts.example", none, none, none, "default"⟩
    ⟨"helm", 0, "v3.0.0", "", 0, "", "", [⟨"app", "default", "mychart-1.0.0"⟩],
     0, "", "", [("replicas", "1")], "/tmp/v.yml", 0, "", "", 0, "", ""⟩
    ⟨"app", "default", "mychart-1.0.0"⟩ "1.0.0"
    rfl rfl rfl rfl (by decide) rfl rfl (by decide) rfl).2

/-- Claim C8 is contradicted by the code: the final exit_json references
the local variables out and err, which are assigned only on the deploy
paths, so both the unchanged outcome and the absent outcome abort with an
UnboundLocalError instead of returning changed with stdout and stderr (in
the absent branch, changed additionally holds the tuple returned by
delete, not a boolean).  This theorem evaluates the run at one absent
input whose delete exits 0 and at one present input that is already
converged. -/
theorem C8_result_surface_bug :
    main_run
        ⟨none, "mychart", some "1.0.0", "app", "default", "absent", [],
         "https://charts.example", none, none, none, "default"⟩
        ⟨"helm", 0, "v3.0.0", "", 0, "", "", [], 0, "", "", [], "/tmp/v.yml",
         0, "", "", 0, "release app deleted", ""⟩ =
      (.pyError "UnboundLocalError", [.probe, .listReleases, .deleteCmd])
    ∧ main_run
        ⟨none, "mychart", some "1.0.0", "app", "default", "present",
         [("replicas", "1")], "https://charts.example", none, none, none, "default"⟩
        ⟨"helm", 0, "v3.0.0", "", 0, "", "", [⟨"app", "default", "mychart-1.0.0"⟩],
         0, "", "", [("replicas", "1")], "/tmp/v.yml", 0, "", "", 0, "", ""⟩ =
      (.pyError "UnboundLocalError", [.probe, .listReleases, .getVals]) := by
  constructor
  · decide
  · decide

end HelmModule
